import Mathlib

/-!
Verification of the Capability Detector + Patch Resolver of
OpenCore-Legacy-Patcher, shallowly embedded from
`resources/sys_patch/sys_patch_detect.py` (class `detect_root_patch`).

External collaborators (network probe, filesystem, NVRAM, loaded-kext
queries, SIP/secure-boot/AMFI system state, the on-disk
`OpenCore-Legacy-Patcher.plist` record) are modelled as an explicit
environment record `Env`; the hardware probe output (`constants.computer`,
`model`, override toggles, detected OS version) is the record `Facts`.
The mutable `self.*` flag fields of `detect_root_patch` are the record
`State`.
-/

namespace OCLP

/-- Darwin major version constants, values as used by the source via
`data/os_data.py`. -/
def yosemite : Nat := 14

def high_sierra : Nat := 17

def mojave : Nat := 18

def catalina : Nat := 19

def big_sur : Nat := 20

def monterey : Nat := 21

def ventura : Nat := 22

/-- GPU architecture tags, from `device_probe` (NVIDIA / AMD / Intel arch
enumerations referenced by `detect_gpus`). -/
inductive GPUArch where
  | nvTesla
  | nvKepler
  | nvFermi
  | nvMaxwell
  | nvPascal
  | amdTS1
  | amdTS2
  | amdGCN7000
  | amdGCN8000
  | amdGCN9000
  | amdPolaris
  | amdVega
  | intelIronLake
  | intelSandyBridge
  | intelIvyBridge
  | intelHaswell
  | intelBroadwell
  | intelSkylake
  | otherArch
deriving DecidableEq

/-- GPU device class, from the `device_probe` class hierarchy
(`isinstance` checks in the source). -/
inductive GPUVendor where
  | nvidia
  | amd
  | intel
  | otherVendor
deriving DecidableEq

/-- One detected GPU (`constants.computer.gpus` element). -/
structure GPU where
  vendor : GPUVendor
  arch : GPUArch
  classCode : Nat
  disableMetal : Bool
  forceCompatible : Bool
deriving DecidableEq

/-- Wireless card vendor class (`device_probe.Broadcom` / `device_probe.Atheros`). -/
inductive WifiVendor where
  | broadcom
  | atheros
  | otherWifiVendor
deriving DecidableEq

/-- Wireless chipset tags referenced by `detect_patch_set`. -/
inductive WifiChipset where
  | airPortBrcm4331
  | airPortBrcm43224
  | airPortAtheros40
  | otherChipset
deriving DecidableEq

/-- One detected wireless unit (`constants.computer.wifi`). -/
structure Wifi where
  vendor : WifiVendor
  chipset : WifiChipset
deriving DecidableEq

/-- USB controller class tags (`device_probe.XHCIController` etc.). -/
inductive USBController where
  | xhci
  | uhci
  | ohci
  | otherController
deriving DecidableEq

/-- `cpu_data.cpu_data.penryn.value` from the external `data/cpu_data.py`
table (CPU generation ordinal used by `check_uhci_ohci`). -/
def penrynValue : Nat := 3

/-- HardwareFact: the probe output and override toggles consumed by the
detector, i.e. `self.model` plus the parts of `self.constants` /
`self.constants.computer` that `detect_root_patch` reads.
Membership of `model` in the external `data/model_array.py` tables is
carried as precomputed booleans, and
`smbiosCpuGeneration = none` models `model not in smbios_data.smbios_dictionary`. -/
structure Facts where
  model : String
  detectedOS : Nat
  detectedOSMinor : Nat
  /-- `"21A5506j" in self.constants.detected_os_build` -/
  buildIs21A5506j : Bool
  forceNvWeb : Bool
  legacyAccelSupport : List Nat
  gpus : List GPU
  rosettaActive : Bool
  /-- `"AVX2" in self.constants.computer.cpu.leafs` -/
  cpuAVX2 : Bool
  ambientLightSensor : Bool
  wifi : Option Wifi
  igpuPresent : Bool
  /-- `self.constants.computer.dgpu` and its `class_code` (none = no dGPU) -/
  dgpuClassCode : Option Nat
  hostIsHackintosh : Bool
  usbControllers : List USBController
  smbiosCpuGeneration : Option Nat
  modelInLegacyBrightness : Bool
  modelInLegacyAudio : Bool
  allowTs2Accel : Bool
deriving DecidableEq

/-- The SIP requirement profile chosen by `check_sip` (which
`sip_data.system_integrity_protection` bit list is checked). -/
inductive SipReq where
  | rootPatchSipBigSur3rdPartKexts
  | rootPatchSipVentura
  | rootPatchSipBigSur
  | rootPatchSipMojave
deriving DecidableEq

/-- External state consulted by the detector through collaborators:
network probe (`utilities.verify_network_connection`), KDK presence
(`sys_patch_helpers.determine_kdk_present`), the on-disk
`OpenCore-Legacy-Patcher.plist` record, NVRAM variables, loaded kexts,
and the security-policy states read by `utilities.patching_status` /
`amfi_detect`. -/
structure Env where
  hasNetwork : Bool
  kdkPresent : Bool
  /-- `Path("/System/Library/CoreServices/OpenCore-Legacy-Patcher.plist").exists()` -/
  oclpPlistExists : Bool
  /-- `"Legacy Wireless" in oclp_plist` -/
  oclpPlistHasLegacyWireless : Bool
  /-- `"-wegnoegpu" in get_nvram("boot-args")` -/
  bootArgsWegNoEGpu : Bool
  /-- `"nvda_drv_vrl=" in get_nvram("boot-args")` -/
  bootArgsNvdaDrvVrl : Bool
  /-- `get_nvram("nvda_drv")` truthiness -/
  nvdaDrvSet : Bool
  /-- `"ngfxgl=" in get_nvram("boot-args")` -/
  bootArgsNgfxgl : Bool
  /-- `"ngfxcompat=" in get_nvram("boot-args")` -/
  bootArgsNgfxcompat : Bool
  /-- `utilities.check_kext_loaded("AppleALC", os)` -/
  appleAlcLoaded : Bool
  /-- `utilities.check_kext_loaded("WhateverGreen", os)` -/
  whateverGreenLoaded : Bool
  /-- `utilities.csr_decode(os_sip)` per SIP requirement profile (reads the
  live CSR value via `py_sip_xnu`) -/
  sipStatus : SipReq → Bool
  /-- `utilities.check_secure_boot_level()` -/
  secureBootEnabled : Bool
  /-- `utilities.check_filevault_skip()` -/
  filevaultSkip : Bool
  /-- `"FileVault is Off" not in fdesetup status` -/
  fdesetupFileVaultOn : Bool
  /-- `/System/Library/Extension/AppleIntelHDGraphics.kext` present -/
  gen6KextPresent : Bool
  /-- `/System/Library/Extension/AppleIntelHD3000Graphics.kext` present -/
  gen7KextPresent : Bool
  /-- `amfi_detect.amfi_configuration_detection().check_config(level)` -/
  amfiConfigPasses : Nat → Bool

/-- The mutable flag fields of `detect_root_patch.__init__`. -/
structure State where
  nvidia_tesla : Bool
  kepler_gpu : Bool
  nvidia_web : Bool
  amd_ts1 : Bool
  amd_ts2 : Bool
  iron_gpu : Bool
  sandy_gpu : Bool
  ivy_gpu : Bool
  haswell_gpu : Bool
  broadwell_gpu : Bool
  skylake_gpu : Bool
  legacy_gcn : Bool
  legacy_polaris : Bool
  legacy_vega : Bool
  brightness_legacy : Bool
  legacy_audio : Bool
  legacy_wifi : Bool
  legacy_gmux : Bool
  legacy_keyboard_backlight : Bool
  legacy_uhci_ohci : Bool
  amfi_must_disable : Bool
  amfi_shim_bins : Bool
  supports_metal : Bool
  needs_nv_web_checks : Bool
  requires_root_kc : Bool
  sip_enabled : Bool
  sbm_enabled : Bool
  amfi_enabled : Bool
  fv_enabled : Bool
  dosdude_patched : Bool
  missing_kdk : Bool
  has_network : Bool
  missing_whatever_green : Bool
  missing_nv_web_nvram : Bool
  missing_nv_web_opengl : Bool
  missing_nv_compat : Bool
deriving DecidableEq

/-- All-false initial state, as set by `__init__`. -/
def initState : State :=
  { nvidia_tesla := false, kepler_gpu := false, nvidia_web := false
    amd_ts1 := false, amd_ts2 := false, iron_gpu := false, sandy_gpu := false
    ivy_gpu := false, haswell_gpu := false, broadwell_gpu := false
    skylake_gpu := false, legacy_gcn := false, legacy_polaris := false
    legacy_vega := false, brightness_legacy := false, legacy_audio := false
    legacy_wifi := false, legacy_gmux := false
    legacy_keyboard_backlight := false, legacy_uhci_ohci := false
    amfi_must_disable := false, amfi_shim_bins := false
    supports_metal := false, needs_nv_web_checks := false
    requires_root_kc := false, sip_enabled := false, sbm_enabled := false
    amfi_enabled := false, fv_enabled := false, dosdude_patched := false
    missing_kdk := false, has_network := false
    missing_whatever_green := false, missing_nv_web_nvram := false
    missing_nv_web_opengl := false, missing_nv_compat := false }

/-- `check_legacy_keyboard_backlight`. -/
def checkLegacyKeyboardBacklight (f : Facts) : Bool :=
  if f.model.startsWith "MacBook" then f.ambientLightSensor else false

/-- `ventura in self.constants.legacy_accel_support` -/
def venturaInAccel (f : Facts) : Bool :=
  f.legacyAccelSupport.contains ventura

/-- One iteration of the GPU loop body of `detect_gpus` (the chained
`elif` over `gpu.arch`, guarded by the class-code check). -/
def gpuStep (f : Facts) (s : State) (g : GPU) : State :=
  if g.classCode ≠ 0 ∧ g.classCode ≠ 0xFFFFFFFF then
    if g.arch ∈ [GPUArch.nvTesla] ∧ f.forceNvWeb = false then
      if f.detectedOS > catalina then
        { s with nvidia_tesla := true
                 amfi_must_disable := true
                 amfi_shim_bins := if venturaInAccel f then true else s.amfi_shim_bins
                 legacy_keyboard_backlight := checkLegacyKeyboardBacklight f
                 requires_root_kc := true }
      else s
    else if g.arch = GPUArch.nvKepler ∧ f.forceNvWeb = false then
      if f.detectedOS > big_sur then
        if f.detectedOS ≥ ventura ∨
            (f.buildIs21A5506j = false ∧ f.detectedOS = monterey ∧
              f.detectedOSMinor > 0) then
          { s with kepler_gpu := true
                   supports_metal := true
                   amfi_must_disable :=
                     if f.detectedOS ≥ ventura then true else s.amfi_must_disable }
        else s
      else s
    else if g.arch ∈ [GPUArch.nvFermi, GPUArch.nvKepler, GPUArch.nvMaxwell,
        GPUArch.nvPascal] then
      if f.detectedOS > mojave then
        { s with nvidia_web := true
                 amfi_must_disable := true
                 amfi_shim_bins := if venturaInAccel f then true else s.amfi_shim_bins
                 needs_nv_web_checks := true
                 requires_root_kc := true }
      else s
    else if g.arch = GPUArch.amdTS1 then
      if f.detectedOS > catalina then
        { s with amd_ts1 := true
                 amfi_must_disable := true
                 amfi_shim_bins := if venturaInAccel f then true else s.amfi_shim_bins
                 requires_root_kc := true }
      else s
    else if g.arch = GPUArch.amdTS2 then
      if f.detectedOS > catalina then
        { s with amd_ts2 := true
                 amfi_must_disable := true
                 amfi_shim_bins := if venturaInAccel f then true else s.amfi_shim_bins
                 requires_root_kc := true }
      else s
    else if g.arch ∈ [GPUArch.amdGCN7000, GPUArch.amdGCN8000,
        GPUArch.amdGCN9000, GPUArch.amdPolaris] then
      if f.detectedOS > monterey then
        if f.rosettaActive = true then s
        else if g.arch = GPUArch.amdPolaris then
          if f.model ≠ "MacBookPro13,3" then
            if f.cpuAVX2 then s
            else
              { s with legacy_polaris := true
                       supports_metal := true
                       requires_root_kc := true
                       amfi_must_disable := true }
          else
            { s with legacy_gcn := true
                     supports_metal := true
                     requires_root_kc := true
                     amfi_must_disable := true }
        else
          { s with legacy_gcn := true
                   supports_metal := true
                   requires_root_kc := true
                   amfi_must_disable := true }
      else s
    else if g.arch = GPUArch.amdVega then
      if f.detectedOS > monterey then
        if f.cpuAVX2 then s
        else
          { s with legacy_vega := true
                   supports_metal := true
                   requires_root_kc := true
                   amfi_must_disable := true }
      else s
    else if g.arch = GPUArch.intelIronLake then
      if f.detectedOS > catalina then
        { s with iron_gpu := true
                 amfi_must_disable := true
                 amfi_shim_bins := if venturaInAccel f then true else s.amfi_shim_bins
                 legacy_keyboard_backlight := checkLegacyKeyboardBacklight f
                 requires_root_kc := true }
      else s
    else if g.arch = GPUArch.intelSandyBridge then
      if f.detectedOS > catalina then
        { s with sandy_gpu := true
                 amfi_must_disable := true
                 amfi_shim_bins := if venturaInAccel f then true else s.amfi_shim_bins
                 legacy_keyboard_backlight := checkLegacyKeyboardBacklight f
                 requires_root_kc := true }
      else s
    else if g.arch = GPUArch.intelIvyBridge then
      if f.detectedOS > big_sur then
        { s with ivy_gpu := true
                 amfi_must_disable :=
                   if f.detectedOS ≥ ventura then true else s.amfi_must_disable
                 supports_metal := true }
      else s
    else if g.arch = GPUArch.intelHaswell then
      if f.detectedOS > monterey then
        { s with haswell_gpu := true, amfi_must_disable := true
                 supports_metal := true }
      else s
    else if g.arch = GPUArch.intelBroadwell then
      if f.detectedOS > monterey then
        { s with broadwell_gpu := true, amfi_must_disable := true
                 supports_metal := true }
      else s
    else if g.arch = GPUArch.intelSkylake then
      if f.detectedOS > monterey then
        { s with skylake_gpu := true, amfi_must_disable := true
                 supports_metal := true }
      else s
    else s
  else s

/-- The `supports_metal` suppression pass at the end of `detect_gpus`
(lines 198-207): a Metal GPU clears all non-Metal rendering flags. -/
def metalSuppress (s : State) : State :=
  if s.supports_metal = true then
    { s with nvidia_tesla := false, nvidia_web := false, amd_ts1 := false
             amd_ts2 := false, iron_gpu := false, sandy_gpu := false
             legacy_keyboard_backlight := false }
  else s

/-- The `legacy_gcn` suppression pass (lines 209-215): legacy GCN
suppresses Polaris and Vega. -/
def gcnSuppress (s : State) : State :=
  if s.legacy_gcn = true then
    { s with legacy_polaris := false, legacy_vega := false }
  else s

/-- Lines 217-222: assume Root KC requirement on Monterey and older,
otherwise check for a KDK when one is required. -/
def rootKcBlock (f : Facts) (e : Env) (s : State) : State :=
  if f.detectedOS ≤ monterey then
    { s with requires_root_kc := true }
  else
    if s.requires_root_kc = true then
      { s with missing_kdk := !e.kdkPresent }
    else s

/-- `check_networking_support` (lines 227-271): the fallback-demotion
rule for KDK-less Legacy Wireless installs. -/
def checkNetworkingSupport (f : Facts) (e : Env) (s : State) : State :=
  if f.detectedOS < ventura then s
  else if s.legacy_wifi = false then s
  else if s.requires_root_kc = false then s
  else if s.missing_kdk = false then s
  else if s.has_network = true then s
  else if e.oclpPlistExists = true ∧ e.oclpPlistHasLegacyWireless = true then s
  else
    { s with missing_kdk := false
             requires_root_kc := false
             nvidia_tesla := false
             nvidia_web := false
             amd_ts1 := false
             amd_ts2 := false
             iron_gpu := false
             sandy_gpu := false
             legacy_gcn := false
             legacy_polaris := false
             legacy_vega := false
             brightness_legacy := false
             legacy_audio := false
             legacy_gmux := false
             legacy_keyboard_backlight := false }

/-- `detect_gpus`: the per-GPU loop, both suppression passes, the Root KC
block, then `check_networking_support`. -/
def detectGpus (f : Facts) (e : Env) (s : State) : State :=
  checkNetworkingSupport f e
    (rootKcBlock f e (gcnSuppress (metalSuppress (f.gpus.foldl (gpuStep f) s))))

/-- `check_dgpu_status`: a dGPU disabled via class code `0xFFFFFFFF`
counts as demuxed. -/
def checkDgpuStatus (f : Facts) : Bool :=
  match f.dgpuClassCode with
  | none => false
  | some cc => if cc ≠ 0 ∧ cc = 0xFFFFFFFF then false else true

/-- `detect_demux`: iGPU present and no (active) dGPU, unless
`-wegnoegpu` is in boot-args. -/
def detectDemux (f : Facts) (e : Env) : Bool :=
  if e.bootArgsWegNoEGpu = false then
    if f.igpuPresent = true ∧ checkDgpuStatus f = false then true else false
  else false

/-- `check_uhci_ohci`. -/
def checkUhciOhci (f : Facts) : Bool :=
  if f.detectedOS < ventura then false
  else if f.usbControllers.contains USBController.xhci then false
  else if f.hostIsHackintosh = true then
    f.usbControllers.any fun c =>
      c = USBController.uhci ∨ c = USBController.ohci
  else
    match f.smbiosCpuGeneration with
    | none => false
    | some gen =>
        if gen ≤ penrynValue ∨ f.model ∈ ["MacPro4,1", "MacPro5,1"] then true
        else false

/-- `check_sip`: which SIP requirement profile applies. -/
def checkSip (f : Facts) (s : State) : SipReq :=
  if f.detectedOS > catalina then
    if s.nvidia_web = true then SipReq.rootPatchSipBigSur3rdPartKexts
    else if f.detectedOS ≥ ventura then SipReq.rootPatchSipVentura
    else SipReq.rootPatchSipBigSur
  else SipReq.rootPatchSipMojave

/-- `utilities.patching_status(os_sip, os)`: the four checklist booleans
(SIP, SecureBootModel, FileVault, dosdude1), with the live system
queries (`csr_decode`, `check_secure_boot_level`, `fdesetup`, kext file
presence) supplied by `Env`. -/
def patchingStatus (e : Env) (osSip : SipReq) (os : Nat) :
    Bool × Bool × Bool × Bool :=
  ((if os > yosemite then e.sipStatus osSip else false),
   e.secureBootEnabled,
   (if os > catalina ∧ e.filevaultSkip = false then e.fdesetupFileVaultOn
    else false),
   (e.gen6KextPresent ∧ e.gen7KextPresent : Bool))

/-- `get_amfi_level_needed`. -/
def getAmfiLevelNeeded (f : Facts) (s : State) : Nat :=
  if s.amfi_must_disable = true then
    if f.detectedOS > catalina then
      if f.detectedOS ≥ ventura ∧ s.amfi_shim_bins = true then 3 else 1
    else 0
  else 0

/-- `check_nv_web_nvram`: boot-args `nvda_drv_vrl=` or the `nvda_drv`
NVRAM variable. -/
def checkNvWebNvram (e : Env) : Bool :=
  if e.bootArgsNvdaDrvVrl = true then true
  else if e.nvdaDrvSet = true then true
  else false

/-- `check_nv_web_opengl`: boot-args `ngfxgl=` or a `disable_metal`
property on some NVIDIA GPU. -/
def checkNvWebOpenGL (f : Facts) (e : Env) : Bool :=
  if e.bootArgsNgfxgl = true then true
  else f.gpus.any fun g => g.vendor = GPUVendor.nvidia ∧ g.disableMetal = true

/-- `check_nv_compat`: boot-args `ngfxcompat=` or a `force_compatible`
property on some NVIDIA GPU. -/
def checkNvCompat (f : Facts) (e : Env) : Bool :=
  if e.bootArgsNgfxcompat = true then true
  else f.gpus.any fun g =>
    g.vendor = GPUVendor.nvidia ∧ g.forceCompatible = true

/-- `verify_patch_allowed`: updates the validation fields from the
security-policy collaborators and returns the `can_apply` verdict
(the final `any([...])` check, negated). -/
def verifyPatchAllowed (f : Facts) (e : Env) (s : State) : State × Bool :=
  let ps := patchingStatus e (checkSip f s) f.detectedOS
  let s1 := { s with sip_enabled := ps.1, sbm_enabled := ps.2.1
                     fv_enabled := ps.2.2.1, dosdude_patched := ps.2.2.2 }
  let s2 := { s1 with
              amfi_enabled := !(e.amfiConfigPasses (getAmfiLevelNeeded f s1)) }
  let s3 :=
    if s2.nvidia_web = true then
      { s2 with missing_nv_web_nvram := !(checkNvWebNvram e)
                missing_nv_web_opengl := !(checkNvWebOpenGL f e)
                missing_nv_compat := !(checkNvCompat f e)
                missing_whatever_green := !e.whateverGreenLoaded }
    else s2
  let blocked :=
    s3.sip_enabled || s3.sbm_enabled || s3.fv_enabled || s3.dosdude_patched ||
    (if s3.amfi_must_disable = true then s3.amfi_enabled else false) ||
    (if s3.nvidia_web = true then s3.missing_nv_web_nvram else false) ||
    (if s3.nvidia_web = true then s3.missing_nv_web_opengl else false) ||
    (if s3.nvidia_web = true then s3.missing_nv_compat else false) ||
    (if s3.nvidia_web = true then s3.missing_whatever_green else false) ||
    (if s3.requires_root_kc = true ∧ s3.missing_kdk = true ∧
        f.detectedOS ≥ ventura then !s3.has_network else false)
  (s3, !blocked)

/-- `verify_unpatch_allowed`: reverting is gated solely on SIP
(must be called after `verify_patch_allowed`). -/
def verifyUnpatchAllowed (s : State) : Bool :=
  !s.sip_enabled

/-- The wireless-chipset test of `detect_patch_set` (lines 420-423):
a Broadcom BCM4331/BCM43224 or Atheros AirPortAtheros40 unit. -/
def legacyWifiChipset (f : Facts) : Bool :=
  match f.wifi with
  | some w =>
      ((w.vendor = WifiVendor.broadcom ∧
          w.chipset ∈ [WifiChipset.airPortBrcm4331,
            WifiChipset.airPortBrcm43224]) ∨
        (w.vendor = WifiVendor.atheros ∧
          w.chipset = WifiChipset.airPortAtheros40) : Bool)
  | none => false

/-- `detect_patch_set`: the network probe, the misc-patch detection
blocks, `detect_gpus`, then the two gating verdicts (computed for the
`root_patch_dict` entries "Validation: Patching Possible" and
"Validation: Unpatching Possible"). Returns the final flag state,
`can_apply`, and `can_revert`. -/
def detectPatchSet (f : Facts) (e : Env) : State × Bool × Bool :=
  let s0 := { initState with has_network := e.hasNetwork }
  let s1 :=
    if checkUhciOhci f = true then
      { s0 with legacy_uhci_ohci := true, requires_root_kc := true }
    else s0
  let s2 :=
    if f.modelInLegacyBrightness = true then
      if f.detectedOS > catalina then { s1 with brightness_legacy := true }
      else s1
    else s1
  let s3 :=
    if f.model ∈ ["iMac7,1", "iMac8,1"] ∨
        (f.modelInLegacyAudio = true ∧ e.appleAlcLoaded = false) then
      if f.detectedOS > catalina then { s2 with legacy_audio := true }
      else s2
    else s2
  let s4 :=
    if legacyWifiChipset f = true then
      if f.detectedOS > big_sur then
        { s3 with legacy_wifi := true
                  amfi_must_disable :=
                    if f.detectedOS ≥ ventura then true
                    else s3.amfi_must_disable }
      else s3
    else s3
  let s5 :=
    if f.model ∈ ["MacBookPro8,2", "MacBookPro8,3"] then
      if f.detectedOS > high_sierra then
        if f.model ∈ ["MacBookPro8,2", "MacBookPro8,3"] then
          if detectDemux f e = true then { s4 with legacy_gmux := true }
          else s4
        else { s4 with legacy_gmux := true }
      else s4
    else s4
  let s6 := detectGpus f e s5
  let r := verifyPatchAllowed f e s6
  (r.1, r.2, verifyUnpatchAllowed r.1)

/-- One patch-catalog entry as consumed by `generate_patchset`:
the `OS Support` min/max (major, minor) pairs, plus whether the
`AMDRadeonX3000.kext` sub-entry of the `Install` payload is present
(the only payload component `generate_patchset` itself mutates).
The catalog itself lives in the external `data/sys_patch_dict.py`, so
entry values are left as parameters of the resolver. -/
structure PatchEntry where
  minMajor : Nat
  minMinor : Nat
  maxMajor : Nat
  maxMinor : Nat
  installX3000 : Bool
deriving DecidableEq

/-- The `required_patches` dictionary: an insertion-ordered list of
(name, entry) pairs, with Python-dict semantics. -/
def PatchDict : Type := List (String × PatchEntry)

instance : Membership (String × PatchEntry) PatchDict :=
  inferInstanceAs (Membership (String × PatchEntry) (List (String × PatchEntry)))

/-- `required_patches.update({k: v})`: replace in place when the key
exists (Python dicts keep the original position), else append. -/
def dictUpdate (d : PatchDict) (k : String) (v : PatchEntry) : PatchDict :=
  match d with
  | [] => [(k, v)]
  | (k', v') :: rest =>
      if k' = k then (k', v) :: rest else (k', v') :: dictUpdate rest k v

/-- `del required_patches[k]`. -/
def dictErase (d : PatchDict) (k : String) : PatchDict :=
  d.filter fun p => p.1 ≠ k

/-- `k in required_patches`. -/
def dictHasKey (d : PatchDict) (k : String) : Bool :=
  d.any fun p => p.1 = k

/-- Mutate the stored value at a key in place (used for the
`AMDRadeonX3000.kext` payload deletion). -/
def dictModify (d : PatchDict) (k : String) (g : PatchEntry → PatchEntry) :
    PatchDict :=
  d.map fun p => if p.1 = k then (p.1, g p.2) else p

/-- The key sequence of the dictionary. -/
def keys (d : PatchDict) : List String :=
  d.map Prod.fst

/-- Decimal digit count, by structural recursion on a fuel argument
(`fuel ≥ n` iterations always suffice since `n / 10 < n` for `n > 0`). -/
def digitCount (fuel n : Nat) : Nat :=
  match fuel with
  | 0 => 0
  | fuel' + 1 => if n = 0 then 0 else digitCount fuel' (n / 10) + 1

/-- Number of decimal digits of the printed minor version
(the length of the fractional part of `f"{major}.{minor}"`);
`0` is printed as `"0"`, contributing value zero either way. -/
def fracDigits (minor : Nat) : Nat :=
  digitCount minor minor

/-- The exact decimal value of Python's `float(f"{major}.{minor}")`
(lines 695, 702-703), represented as the fraction
`(major * 10^d + minor) / 10^d` with `d` the digit count of `minor`.
This models the parsed value exactly; the double-precision parse is
order-faithful on all version numbers of at most 15 significant digits. -/
def osVal (major minor : Nat) : Nat × Nat :=
  (major * 10 ^ fracDigits minor + minor, 10 ^ fracDigits minor)

/-- Strict comparison of two decimal values, by cross-multiplication. -/
def valLt (x y : Nat × Nat) : Bool :=
  x.1 * y.2 < y.1 * x.2

/-- Entry insertion block for `Graphics: Intel Ironlake` (lines 590-593). -/
def gsIronlake (cat : String → PatchEntry) (hd : State) (d : PatchDict) :
    PatchDict :=
  if hd.iron_gpu = true then
    dictUpdate (dictUpdate (dictUpdate d
      "Non-Metal Common" (cat "Non-Metal Common"))
      "WebKit Monterey Common" (cat "WebKit Monterey Common"))
      "Intel Ironlake" (cat "Intel Ironlake")
  else d

/-- Entry insertion block for `Graphics: Intel Sandy Bridge`
(lines 594-599). -/
def gsSandyBridge (cat : String → PatchEntry) (hd : State) (d : PatchDict) :
    PatchDict :=
  if hd.sandy_gpu = true then
    dictUpdate (dictUpdate (dictUpdate (dictUpdate (dictUpdate d
      "Non-Metal Common" (cat "Non-Metal Common"))
      "Non-Metal ColorSync Workaround" (cat "Non-Metal ColorSync Workaround"))
      "High Sierra GVA" (cat "High Sierra GVA"))
      "WebKit Monterey Common" (cat "WebKit Monterey Common"))
      "Intel Sandy Bridge" (cat "Intel Sandy Bridge")
  else d

/-- Entry insertion block for `Graphics: Intel Ivy Bridge`
(lines 600-606). -/
def gsIvyBridge (cat : String → PatchEntry) (hd : State) (d : PatchDict) :
    PatchDict :=
  if hd.ivy_gpu = true then
    dictUpdate (dictUpdate (dictUpdate (dictUpdate (dictUpdate (dictUpdate d
      "Metal 3802 Common" (cat "Metal 3802 Common"))
      "Catalina GVA" (cat "Catalina GVA"))
      "Monterey OpenCL" (cat "Monterey OpenCL"))
      "Big Sur OpenCL" (cat "Big Sur OpenCL"))
      "WebKit Monterey Common" (cat "WebKit Monterey Common"))
      "Intel Ivy Bridge" (cat "Intel Ivy Bridge")
  else d

/-- Entry insertion block for `Graphics: Intel Haswell` (lines 607-611). -/
def gsHaswell (cat : String → PatchEntry) (hd : State) (d : PatchDict) :
    PatchDict :=
  if hd.haswell_gpu = true then
    dictUpdate (dictUpdate (dictUpdate (dictUpdate d
      "Metal 3802 Common" (cat "Metal 3802 Common"))
      "Monterey GVA" (cat "Monterey GVA"))
      "Monterey OpenCL" (cat "Monterey OpenCL"))
      "Intel Haswell" (cat "Intel Haswell")
  else d

/-- Entry insertion block for `Graphics: Intel Broadwell`
(lines 612-615). -/
def gsBroadwell (cat : String → PatchEntry) (hd : State) (d : PatchDict) :
    PatchDict :=
  if hd.broadwell_gpu = true then
    dictUpdate (dictUpdate (dictUpdate d
      "Monterey GVA" (cat "Monterey GVA"))
      "Monterey OpenCL" (cat "Monterey OpenCL"))
      "Intel Broadwell" (cat "Intel Broadwell")
  else d

/-- Entry insertion block for `Graphics: Intel Skylake` (lines 616-619). -/
def gsSkylake (cat : String → PatchEntry) (hd : State) (d : PatchDict) :
    PatchDict :=
  if hd.skylake_gpu = true then
    dictUpdate (dictUpdate (dictUpdate d
      "Monterey GVA" (cat "Monterey GVA"))
      "Monterey OpenCL" (cat "Monterey OpenCL"))
      "Intel Skylake" (cat "Intel Skylake")
  else d

/-- Entry insertion block for `Graphics: Nvidia Tesla` (lines 620-623). -/
def gsNvidiaTesla (cat : String → PatchEntry) (hd : State) (d : PatchDict) :
    PatchDict :=
  if hd.nvidia_tesla = true then
    dictUpdate (dictUpdate (dictUpdate d
      "Non-Metal Common" (cat "Non-Metal Common"))
      "WebKit Monterey Common" (cat "WebKit Monterey Common"))
      "Nvidia Tesla" (cat "Nvidia Tesla")
  else d

/-- Entry insertion block for `Graphics: Nvidia Web Drivers`
(lines 624-630). -/
def gsNvidiaWeb (cat : String → PatchEntry) (hd : State) (d : PatchDict) :
    PatchDict :=
  if hd.nvidia_web = true then
    dictUpdate (dictUpdate (dictUpdate (dictUpdate (dictUpdate (dictUpdate d
      "Non-Metal Common" (cat "Non-Metal Common"))
      "Non-Metal IOAccelerator Common" (cat "Non-Metal IOAccelerator Common"))
      "Non-Metal CoreDisplay Common" (cat "Non-Metal CoreDisplay Common"))
      "WebKit Monterey Common" (cat "WebKit Monterey Common"))
      "Nvidia Web Drivers" (cat "Nvidia Web Drivers"))
      "Non-Metal Enforcement" (cat "Non-Metal Enforcement")
  else d

/-- Entry insertion block for `Graphics: Nvidia Kepler` (lines 631-644),
including the mixed Haswell-iGPU removal of `Catalina GVA`. -/
def gsNvidiaKepler (f : Facts) (cat : String → PatchEntry) (hd : State)
    (d : PatchDict) : PatchDict :=
  if hd.kepler_gpu = true then
    let d1 :=
      dictUpdate (dictUpdate (dictUpdate (dictUpdate (dictUpdate
        (dictUpdate (dictUpdate d
        "Revert Metal Downgrade" (cat "Revert Metal Downgrade"))
        "Metal 3802 Common" (cat "Metal 3802 Common"))
        "Catalina GVA" (cat "Catalina GVA"))
        "Monterey OpenCL" (cat "Monterey OpenCL"))
        "Big Sur OpenCL" (cat "Big Sur OpenCL"))
        "WebKit Monterey Common" (cat "WebKit Monterey Common"))
        "Nvidia Kepler" (cat "Nvidia Kepler")
    if f.gpus.any (fun g => g.arch = GPUArch.intelHaswell) then
      dictErase d1 "Catalina GVA"
    else d1
  else d

/-- Entry insertion block for `Graphics: AMD TeraScale 1`
(lines 645-649). -/
def gsAmdTS1 (cat : String → PatchEntry) (hd : State) (d : PatchDict) :
    PatchDict :=
  if hd.amd_ts1 = true then
    dictUpdate (dictUpdate (dictUpdate (dictUpdate d
      "Non-Metal Common" (cat "Non-Metal Common"))
      "WebKit Monterey Common" (cat "WebKit Monterey Common"))
      "AMD TeraScale Common" (cat "AMD TeraScale Common"))
      "AMD TeraScale 1" (cat "AMD TeraScale 1")
  else d

/-- Entry insertion block for `Graphics: AMD TeraScale 2`
(lines 650-659), including the conditional `AMDRadeonX3000.kext`
payload removal. -/
def gsAmdTS2 (f : Facts) (cat : String → PatchEntry) (hd : State)
    (d : PatchDict) : PatchDict :=
  if hd.amd_ts2 = true then
    let d1 :=
      dictUpdate (dictUpdate (dictUpdate (dictUpdate (dictUpdate d
        "Non-Metal Common" (cat "Non-Metal Common"))
        "Non-Metal IOAccelerator Common" (cat "Non-Metal IOAccelerator Common"))
        "WebKit Monterey Common" (cat "WebKit Monterey Common"))
        "AMD TeraScale Common" (cat "AMD TeraScale Common"))
        "AMD TeraScale 2" (cat "AMD TeraScale 2")
    if f.allowTs2Accel = false ∨
        f.legacyAccelSupport.contains f.detectedOS = false then
      dictModify d1 "AMD TeraScale 2" fun v => { v with installX3000 := false }
    else d1
  else d

/-- Entry insertion block for `Graphics: AMD Legacy GCN` /
`Graphics: AMD Legacy Polaris` (lines 660-669). -/
def gsAmdGcnPolaris (f : Facts) (cat : String → PatchEntry) (hd : State)
    (d : PatchDict) : PatchDict :=
  if hd.legacy_gcn = true ∨ hd.legacy_polaris = true then
    let d1 :=
      dictUpdate (dictUpdate (dictUpdate d
        "Revert Metal Downgrade" (cat "Revert Metal Downgrade"))
        "Monterey GVA" (cat "Monterey GVA"))
        "Monterey OpenCL" (cat "Monterey OpenCL")
    let d2 :=
      if hd.legacy_gcn = true then
        dictUpdate d1 "AMD Legacy GCN" (cat "AMD Legacy GCN")
      else
        dictUpdate d1 "AMD Legacy Polaris" (cat "AMD Legacy Polaris")
    if f.cpuAVX2 = false then
      dictUpdate d2 "AMD OpenCL" (cat "AMD OpenCL")
    else d2
  else d

/-- Entry insertion block for `Graphics: AMD Legacy Vega`
(lines 670-676), including the GCN-gated `AMD Legacy Vega Extended`
entry. -/
def gsAmdVega (cat : String → PatchEntry) (hd : State) (d : PatchDict) :
    PatchDict :=
  if hd.legacy_vega = true then
    let d1 :=
      dictUpdate (dictUpdate (dictUpdate (dictUpdate d
        "Monterey GVA" (cat "Monterey GVA"))
        "Monterey OpenCL" (cat "Monterey OpenCL"))
        "AMD Legacy Vega" (cat "AMD Legacy Vega"))
        "AMD OpenCL" (cat "AMD OpenCL")
    if hd.legacy_gcn = true then
      dictUpdate d1 "AMD Legacy Vega Extended" (cat "AMD Legacy Vega Extended")
    else d1
  else d

/-- Entry insertion blocks for the non-graphics flags (lines 677-692). -/
def gsMisc (f : Facts) (cat : String → PatchEntry) (hd : State)
    (d : PatchDict) : PatchDict :=
  let d1 :=
    if hd.brightness_legacy = true then
      dictUpdate d "Legacy Backlight Control" (cat "Legacy Backlight Control")
    else d
  let d2 :=
    if hd.legacy_audio = true then
      if f.model ∈ ["iMac7,1", "iMac8,1"] then
        dictUpdate d1 "Legacy Realtek" (cat "Legacy Realtek")
      else
        dictUpdate d1 "Legacy Non-GOP" (cat "Legacy Non-GOP")
    else d1
  let d3 :=
    if hd.legacy_wifi = true then
      dictUpdate (dictUpdate d2
        "Legacy Wireless" (cat "Legacy Wireless"))
        "Legacy Wireless Extended" (cat "Legacy Wireless Extended")
    else d2
  let d4 :=
    if hd.legacy_gmux = true then
      dictUpdate d3 "Legacy GMUX" (cat "Legacy GMUX")
    else d3
  let d5 :=
    if hd.legacy_keyboard_backlight = true then
      dictUpdate d4 "Legacy Keyboard Backlight" (cat "Legacy Keyboard Backlight")
    else d4
  if hd.legacy_uhci_ohci = true then
    dictUpdate d5 "Legacy USB 1.1" (cat "Legacy USB 1.1")
  else d5

/-- The final pass of `generate_patchset` (lines 694-711): when any
entries were collected, prefer `Monterey GVA` over `Catalina GVA`, then
drop every entry whose `[min, max]` float range excludes the host's
`float(f"{os}.{minor}")` value. -/
def gsFinalize (f : Facts) (d : PatchDict) : PatchDict :=
  if d.isEmpty then d
  else
    let d1 :=
      if dictHasKey d "Catalina GVA" = true ∧
          dictHasKey d "Monterey GVA" = true then
        dictErase d "Catalina GVA"
      else d
    let host := osVal f.detectedOS f.detectedOSMinor
    d1.filter fun p =>
      !(valLt host (osVal p.2.minMajor p.2.minMinor) ||
        valLt (osVal p.2.maxMajor p.2.maxMinor) host)

/-- `generate_patchset(hardware_details)`: the full resolver, with the
`hardware_details` dictionary represented by the corresponding `State`
flag fields and the external `sys_patch_dict` catalog by `cat`. -/
def generatePatchset (f : Facts) (hd : State) (cat : String → PatchEntry) :
    PatchDict :=
  gsFinalize f
    (gsMisc f cat hd
      (gsAmdVega cat hd
        (gsAmdGcnPolaris f cat hd
          (gsAmdTS2 f cat hd
            (gsAmdTS1 cat hd
              (gsNvidiaKepler f cat hd
                (gsNvidiaWeb cat hd
                  (gsNvidiaTesla cat hd
                    (gsSkylake cat hd
                      (gsBroadwell cat hd
                        (gsHaswell cat hd
                          (gsIvyBridge cat hd
                            (gsSandyBridge cat hd
                              (gsIronlake cat hd []))))))))))))))

/-! ### Dictionary lemmas -/

/-- Key list of an update: unchanged when the key is present (Python
dicts keep the first-insertion position), else the new key is appended. -/
theorem keys_dictUpdate (d : PatchDict) (k : String) (v : PatchEntry) :
    keys (dictUpdate d k v) =
      if k ∈ keys d then keys d else keys d ++ [k] := by
  unfold keys
  induction d with
  | nil => simp [dictUpdate]
  | cons p rest ih =>
      by_cases h : p.1 = k
      · have hk : k ∈ List.map Prod.fst (p :: rest) := by
          simp
          exact Or.inl h.symm
        simp [dictUpdate, h, hk]
      · have hne : ¬k = p.1 := fun hk => h hk.symm
        by_cases hmem : k ∈ List.map Prod.fst rest
        · have hk2 : k ∈ List.map Prod.fst (p :: rest) := by simp [hmem]
          simp [dictUpdate, h, hk2, ih, hmem]
        · have hk2 : k ∉ List.map Prod.fst (p :: rest) := by
            simp [hmem, hne]
          simp [dictUpdate, h, hk2, ih, hmem, hne]

theorem mem_keys_dictUpdate (d : PatchDict) (k : String) (v : PatchEntry)
    (a : String) :
    a ∈ keys (dictUpdate d k v) ↔ a = k ∨ a ∈ keys d := by
  rw [keys_dictUpdate]
  by_cases hmem : k ∈ keys d
  · simp [hmem]
    intro ha
    subst ha
    exact hmem
  · simp [hmem, or_comm]

theorem nodup_keys_dictUpdate (d : PatchDict) (k : String) (v : PatchEntry)
    (h : (keys d).Nodup) : (keys (dictUpdate d k v)).Nodup := by
  rw [keys_dictUpdate]
  by_cases hmem : k ∈ keys d
  · simpa [hmem] using h
  · rw [if_neg hmem]
    refine List.Nodup.append h (List.nodup_singleton k) ?_
    intro a ha hak
    simp only [List.mem_singleton] at hak
    subst hak
    exact hmem ha

theorem keys_dictModify (d : PatchDict) (k : String)
    (g : PatchEntry → PatchEntry) : keys (dictModify d k g) = keys d := by
  induction d with
  | nil => rfl
  | cons p rest ih =>
      by_cases h : p.1 = k <;> simp [dictModify, keys, h] <;>
        simpa [dictModify, keys] using ih

theorem keys_dictErase_sublist (d : PatchDict) (k : String) :
    (keys (dictErase d k)).Sublist (keys d) :=
  List.Sublist.map Prod.fst (List.filter_sublist d)

theorem nodup_keys_dictErase (d : PatchDict) (k : String)
    (h : (keys d).Nodup) : (keys (dictErase d k)).Nodup :=
  (keys_dictErase_sublist d k).nodup h

theorem not_mem_keys_dictErase (d : PatchDict) (k a : String)
    (h : a ∉ keys d) : a ∉ keys (dictErase d k) :=
  fun hmem => h ((keys_dictErase_sublist d k).mem hmem)

theorem keys_filter_sublist (d : PatchDict) (p : String × PatchEntry → Bool) :
    (keys (d.filter p)).Sublist (keys d) :=
  List.Sublist.map Prod.fst (List.filter_sublist d)

instance (p : String × PatchEntry) (d : PatchDict) : Decidable (p ∈ d) :=
  decidable_of_iff (p ∈ (show List (String × PatchEntry) from d)) Iff.rfl

theorem not_mem_keys_dictUpdate (d : PatchDict) (k : String) (v : PatchEntry)
    (a : String) (ha : a ∉ keys d) (hak : a ≠ k) :
    a ∉ keys (dictUpdate d k v) := by
  rw [mem_keys_dictUpdate]
  rintro (h | h)
  · exact hak h
  · exact ha h

theorem not_mem_keys_dictModify (d : PatchDict) (k : String)
    (g : PatchEntry → PatchEntry) (a : String) (ha : a ∉ keys d) :
    a ∉ keys (dictModify d k g) := by
  rw [keys_dictModify]
  exact ha

theorem not_mem_keys_filter (d : PatchDict) (p : String × PatchEntry → Bool)
    (a : String) (ha : a ∉ keys d) : a ∉ keys (d.filter p) :=
  fun hm => ha ((keys_filter_sublist d p).mem hm)

/-! ### Per-block key lemmas for the resolver -/

theorem nodup_keys_filter (d : PatchDict) (p : String × PatchEntry → Bool)
    (h : (keys d).Nodup) : (keys (d.filter p)).Nodup :=
  (keys_filter_sublist d p).nodup h

theorem nodup_gsIronlake (cat : String → PatchEntry) (hd : State)
    (d : PatchDict) (h : (keys d).Nodup) :
    (keys (gsIronlake cat hd d)).Nodup := by
  unfold gsIronlake
  repeat' split
  all_goals repeat first
    | exact h
    | apply nodup_keys_dictUpdate

theorem nodup_gsSandyBridge (cat : String → PatchEntry) (hd : State)
    (d : PatchDict) (h : (keys d).Nodup) :
    (keys (gsSandyBridge cat hd d)).Nodup := by
  unfold gsSandyBridge
  repeat' split
  all_goals repeat first
    | exact h
    | apply nodup_keys_dictUpdate

theorem nodup_gsIvyBridge (cat : String → PatchEntry) (hd : State)
    (d : PatchDict) (h : (keys d).Nodup) :
    (keys (gsIvyBridge cat hd d)).Nodup := by
  unfold gsIvyBridge
  repeat' split
  all_goals repeat first
    | exact h
    | apply nodup_keys_dictUpdate

theorem nodup_gsHaswell (cat : String → PatchEntry) (hd : State)
    (d : PatchDict) (h : (keys d).Nodup) :
    (keys (gsHaswell cat hd d)).Nodup := by
  unfold gsHaswell
  repeat' split
  all_goals repeat first
    | exact h
    | apply nodup_keys_dictUpdate

theorem nodup_gsBroadwell (cat : String → PatchEntry) (hd : State)
    (d : PatchDict) (h : (keys d).Nodup) :
    (keys (gsBroadwell cat hd d)).Nodup := by
  unfold gsBroadwell
  repeat' split
  all_goals repeat first
    | exact h
    | apply nodup_keys_dictUpdate

theorem nodup_gsSkylake (cat : String → PatchEntry) (hd : State)
    (d : PatchDict) (h : (keys d).Nodup) :
    (keys (gsSkylake cat hd d)).Nodup := by
  unfold gsSkylake
  repeat' split
  all_goals repeat first
    | exact h
    | apply nodup_keys_dictUpdate

theorem nodup_gsNvidiaTesla (cat : String → PatchEntry) (hd : State)
    (d : PatchDict) (h : (keys d).Nodup) :
    (keys (gsNvidiaTesla cat hd d)).Nodup := by
  unfold gsNvidiaTesla
  repeat' split
  all_goals repeat first
    | exact h
    | apply nodup_keys_dictUpdate

theorem nodup_gsNvidiaWeb (cat : String → PatchEntry) (hd : State)
    (d : PatchDict) (h : (keys d).Nodup) :
    (keys (gsNvidiaWeb cat hd d)).Nodup := by
  unfold gsNvidiaWeb
  repeat' split
  all_goals repeat first
    | exact h
    | apply nodup_keys_dictUpdate

theorem nodup_gsNvidiaKepler (f : Facts) (cat : String → PatchEntry)
    (hd : State) (d : PatchDict) (h : (keys d).Nodup) :
    (keys (gsNvidiaKepler f cat hd d)).Nodup := by
  unfold gsNvidiaKepler
  dsimp only
  repeat' split
  all_goals repeat first
    | exact h
    | apply nodup_keys_dictUpdate
    | apply nodup_keys_dictErase

theorem nodup_gsAmdTS1 (cat : String → PatchEntry) (hd : State)
    (d : PatchDict) (h : (keys d).Nodup) :
    (keys (gsAmdTS1 cat hd d)).Nodup := by
  unfold gsAmdTS1
  repeat' split
  all_goals repeat first
    | exact h
    | apply nodup_keys_dictUpdate

theorem nodup_gsAmdTS2 (f : Facts) (cat : String → PatchEntry) (hd : State)
    (d : PatchDict) (h : (keys d).Nodup) :
    (keys (gsAmdTS2 f cat hd d)).Nodup := by
  unfold gsAmdTS2
  dsimp only
  repeat' split
  all_goals repeat first
    | exact h
    | apply nodup_keys_dictUpdate
    | rw [keys_dictModify]

theorem nodup_gsAmdGcnPolaris (f : Facts) (cat : String → PatchEntry)
    (hd : State) (d : PatchDict) (h : (keys d).Nodup) :
    (keys (gsAmdGcnPolaris f cat hd d)).Nodup := by
  unfold gsAmdGcnPolaris
  dsimp only
  repeat' split
  all_goals repeat first
    | exact h
    | apply nodup_keys_dictUpdate

theorem nodup_gsAmdVega (cat : String → PatchEntry) (hd : State)
    (d : PatchDict) (h : (keys d).Nodup) :
    (keys (gsAmdVega cat hd d)).Nodup := by
  unfold gsAmdVega
  dsimp only
  repeat' split
  all_goals repeat first
    | exact h
    | apply nodup_keys_dictUpdate

theorem nodup_gsMisc (f : Facts) (cat : String → PatchEntry) (hd : State)
    (d : PatchDict) (h : (keys d).Nodup) :
    (keys (gsMisc f cat hd d)).Nodup := by
  unfold gsMisc
  dsimp only
  repeat' split
  all_goals repeat first
    | exact h
    | apply nodup_keys_dictUpdate

theorem nodup_gsFinalize (f : Facts) (d : PatchDict)
    (h : (keys d).Nodup) : (keys (gsFinalize f d)).Nodup := by
  unfold gsFinalize
  dsimp only
  repeat' split
  all_goals repeat first
    | exact h
    | apply nodup_keys_filter
    | apply nodup_keys_dictErase

/-- The resolver's returned name sequence never contains a repeated
name, for any flag record and catalog. -/
theorem nodup_keys_generatePatchset (f : Facts) (hd : State)
    (cat : String → PatchEntry) :
    (keys (generatePatchset f hd cat)).Nodup := by
  unfold generatePatchset
  apply nodup_gsFinalize
  apply nodup_gsMisc
  apply nodup_gsAmdVega
  apply nodup_gsAmdGcnPolaris
  apply nodup_gsAmdTS2
  apply nodup_gsAmdTS1
  apply nodup_gsNvidiaKepler
  apply nodup_gsNvidiaWeb
  apply nodup_gsNvidiaTesla
  apply nodup_gsSkylake
  apply nodup_gsBroadwell
  apply nodup_gsHaswell
  apply nodup_gsIvyBridge
  apply nodup_gsSandyBridge
  apply nodup_gsIronlake
  simp [keys]

theorem vx_gsIronlake (cat : String → PatchEntry) (hd : State)
    (d : PatchDict) (h : "AMD Legacy Vega Extended" ∉ keys d) :
    "AMD Legacy Vega Extended" ∉ keys (gsIronlake cat hd d) := by
  unfold gsIronlake
  repeat' split
  all_goals repeat first
    | exact h
    | refine not_mem_keys_dictUpdate _ _ _ _ ?_ (by decide)

theorem vx_gsSandyBridge (cat : String → PatchEntry) (hd : State)
    (d : PatchDict) (h : "AMD Legacy Vega Extended" ∉ keys d) :
    "AMD Legacy Vega Extended" ∉ keys (gsSandyBridge cat hd d) := by
  unfold gsSandyBridge
  repeat' split
  all_goals repeat first
    | exact h
    | refine not_mem_keys_dictUpdate _ _ _ _ ?_ (by decide)

theorem vx_gsIvyBridge (cat : String → PatchEntry) (hd : State)
    (d : PatchDict) (h : "AMD Legacy Vega Extended" ∉ keys d) :
    "AMD Legacy Vega Extended" ∉ keys (gsIvyBridge cat hd d) := by
  unfold gsIvyBridge
  repeat' split
  all_goals repeat first
    | exact h
    | refine not_mem_keys_dictUpdate _ _ _ _ ?_ (by decide)

theorem vx_gsHaswell (cat : String → PatchEntry) (hd : State)
    (d : PatchDict) (h : "AMD Legacy Vega Extended" ∉ keys d) :
    "AMD Legacy Vega Extended" ∉ keys (gsHaswell cat hd d) := by
  unfold gsHaswell
  repeat' split
  all_goals repeat first
    | exact h
    | refine not_mem_keys_dictUpdate _ _ _ _ ?_ (by decide)

theorem vx_gsBroadwell (cat : String → PatchEntry) (hd : State)
    (d : PatchDict) (h : "AMD Legacy Vega Extended" ∉ keys d) :
    "AMD Legacy Vega Extended" ∉ keys (gsBroadwell cat hd d) := by
  unfold gsBroadwell
  repeat' split
  all_goals repeat first
    | exact h
    | refine not_mem_keys_dictUpdate _ _ _ _ ?_ (by decide)

theorem vx_gsSkylake (cat : String → PatchEntry) (hd : State)
    (d : PatchDict) (h : "AMD Legacy Vega Extended" ∉ keys d) :
    "AMD Legacy Vega Extended" ∉ keys (gsSkylake cat hd d) := by
  unfold gsSkylake
  repeat' split
  all_goals repeat first
    | exact h
    | refine not_mem_keys_dictUpdate _ _ _ _ ?_ (by decide)

theorem vx_gsNvidiaTesla (cat : String → PatchEntry) (hd : State)
    (d : PatchDict) (h : "AMD Legacy Vega Extended" ∉ keys d) :
    "AMD Legacy Vega Extended" ∉ keys (gsNvidiaTesla cat hd d) := by
  unfold gsNvidiaTesla
  repeat' split
  all_goals repeat first
    | exact h
    | refine not_mem_keys_dictUpdate _ _ _ _ ?_ (by decide)

theorem vx_gsNvidiaWeb (cat : String → PatchEntry) (hd : State)
    (d : PatchDict) (h : "AMD Legacy Vega Extended" ∉ keys d) :
    "AMD Legacy Vega Extended" ∉ keys (gsNvidiaWeb cat hd d) := by
  unfold gsNvidiaWeb
  repeat' split
  all_goals repeat first
    | exact h
    | refine not_mem_keys_dictUpdate _ _ _ _ ?_ (by decide)

theorem vx_gsNvidiaKepler (f : Facts) (cat : String → PatchEntry)
    (hd : State) (d : PatchDict)
    (h : "AMD Legacy Vega Extended" ∉ keys d) :
    "AMD Legacy Vega Extended" ∉ keys (gsNvidiaKepler f cat hd d) := by
  unfold gsNvidiaKepler
  dsimp only
  repeat' split
  all_goals repeat first
    | exact h
    | apply not_mem_keys_dictErase
    | refine not_mem_keys_dictUpdate _ _ _ _ ?_ (by decide)

theorem vx_gsAmdTS1 (cat : String → PatchEntry) (hd : State)
    (d : PatchDict) (h : "AMD Legacy Vega Extended" ∉ keys d) :
    "AMD Legacy Vega Extended" ∉ keys (gsAmdTS1 cat hd d) := by
  unfold gsAmdTS1
  repeat' split
  all_goals repeat first
    | exact h
    | refine not_mem_keys_dictUpdate _ _ _ _ ?_ (by decide)

theorem vx_gsAmdTS2 (f : Facts) (cat : String → PatchEntry) (hd : State)
    (d : PatchDict) (h : "AMD Legacy Vega Extended" ∉ keys d) :
    "AMD Legacy Vega Extended" ∉ keys (gsAmdTS2 f cat hd d) := by
  unfold gsAmdTS2
  dsimp only
  repeat' split
  all_goals repeat first
    | exact h
    | apply not_mem_keys_dictModify
    | refine not_mem_keys_dictUpdate _ _ _ _ ?_ (by decide)

theorem vx_gsAmdGcnPolaris (f : Facts) (cat : String → PatchEntry)
    (hd : State) (d : PatchDict)
    (h : "AMD Legacy Vega Extended" ∉ keys d) :
    "AMD Legacy Vega Extended" ∉ keys (gsAmdGcnPolaris f cat hd d) := by
  unfold gsAmdGcnPolaris
  dsimp only
  repeat' split
  all_goals repeat first
    | exact h
    | refine not_mem_keys_dictUpdate _ _ _ _ ?_ (by decide)

/-- The `AMD Legacy Vega Extended` entry is only ever inserted by the
Vega block, and only when the Legacy GCN flag is also true. -/
theorem vx_gsAmdVega (cat : String → PatchEntry) (hd : State)
    (d : PatchDict)
    (hgv : ¬(hd.legacy_vega = true ∧ hd.legacy_gcn = true))
    (h : "AMD Legacy Vega Extended" ∉ keys d) :
    "AMD Legacy Vega Extended" ∉ keys (gsAmdVega cat hd d) := by
  unfold gsAmdVega
  dsimp only
  split
  · rename_i hv
    split
    · rename_i hg
      exact absurd ⟨hv, hg⟩ hgv
    · repeat first
        | exact h
        | refine not_mem_keys_dictUpdate _ _ _ _ ?_ (by decide)
  · exact h

theorem vx_gsMisc (f : Facts) (cat : String → PatchEntry) (hd : State)
    (d : PatchDict) (h : "AMD Legacy Vega Extended" ∉ keys d) :
    "AMD Legacy Vega Extended" ∉ keys (gsMisc f cat hd d) := by
  unfold gsMisc
  dsimp only
  repeat' split
  all_goals repeat first
    | exact h
    | refine not_mem_keys_dictUpdate _ _ _ _ ?_ (by decide)

theorem vx_gsFinalize (f : Facts) (d : PatchDict)
    (h : "AMD Legacy Vega Extended" ∉ keys d) :
    "AMD Legacy Vega Extended" ∉ keys (gsFinalize f d) := by
  unfold gsFinalize
  dsimp only
  repeat' split
  all_goals repeat first
    | exact h
    | apply not_mem_keys_filter
    | apply not_mem_keys_dictErase

/-- Unless the flag record has both Legacy Vega and Legacy GCN true, the
resolver's output never contains `AMD Legacy Vega Extended`. -/
theorem vegaExt_not_mem_generatePatchset (f : Facts) (hd : State)
    (cat : String → PatchEntry)
    (hgv : ¬(hd.legacy_vega = true ∧ hd.legacy_gcn = true)) :
    "AMD Legacy Vega Extended" ∉ keys (generatePatchset f hd cat) := by
  unfold generatePatchset
  apply vx_gsFinalize
  apply vx_gsMisc
  apply vx_gsAmdVega _ _ _ hgv
  apply vx_gsAmdGcnPolaris
  apply vx_gsAmdTS2
  apply vx_gsAmdTS1
  apply vx_gsNvidiaKepler
  apply vx_gsNvidiaWeb
  apply vx_gsNvidiaTesla
  apply vx_gsSkylake
  apply vx_gsBroadwell
  apply vx_gsHaswell
  apply vx_gsIvyBridge
  apply vx_gsSandyBridge
  apply vx_gsIronlake
  simp [keys]

/-! ### Version-filter lemmas (claim C1) -/

/-- Every entry surviving the final pass of the resolver satisfies the
filter's float-value containment test. -/
theorem mem_gsFinalize_contained (f : Facts) (d : PatchDict)
    (p : String × PatchEntry) (hp : p ∈ gsFinalize f d) :
    valLt (osVal f.detectedOS f.detectedOSMinor)
      (osVal p.2.minMajor p.2.minMinor) = false ∧
    valLt (osVal p.2.maxMajor p.2.maxMinor)
      (osVal f.detectedOS f.detectedOSMinor) = false := by
  unfold gsFinalize at hp
  split at hp
  · rename_i hemp
    rw [List.isEmpty_iff] at hemp
    rw [hemp] at hp
    exact absurd hp (List.not_mem_nil p)
  · dsimp only at hp
    have hfilter := List.mem_filter.mp hp
    have hcond := hfilter.2
    simp only [Bool.not_eq_true', Bool.or_eq_false_iff] at hcond
    exact hcond

/-- A one-digit fractional part: `fracDigits b = 1` for `1 ≤ b ≤ 9`. -/
theorem fracDigits_lt_ten (b : Nat) (h1 : 1 ≤ b) (h9 : b < 10) :
    fracDigits b = 1 := by
  interval_cases b <;> decide

/-- On minor versions below 10 the float comparison agrees with the
lexicographic (major, minor) comparison; the agreement breaks down at
minors ≥ 10 (e.g. `float("22.10") = float("22.1")`). -/
theorem valLt_pair_agreement (a b c d : Nat) (hb : b < 10) (hd : d < 10) :
    valLt (osVal a b) (osVal c d) = true ↔ a < c ∨ (a = c ∧ b < d) := by
  have hfb : fracDigits b = if b = 0 then 0 else 1 := by
    by_cases h0 : b = 0
    · simp [h0]
      decide
    · simp [h0]
      exact fracDigits_lt_ten b (Nat.one_le_iff_ne_zero.mpr h0) hb
  have hfd : fracDigits d = if d = 0 then 0 else 1 := by
    by_cases h0 : d = 0
    · simp [h0]
      decide
    · simp [h0]
      exact fracDigits_lt_ten d (Nat.one_le_iff_ne_zero.mpr h0) hd
  unfold valLt osVal
  rw [hfb, hfd]
  by_cases h0 : b = 0 <;> by_cases h1 : d = 0 <;>
    simp [h0, h1, decide_eq_true_eq] <;> omega

/-! ### Detector suppression invariant (claims C3, C10) -/

/-- The mutual-exclusion property enforced by the suppression passes of
`detect_gpus`: Metal support clears the non-Metal rendering flags, and
legacy GCN clears Polaris and Vega. -/
def MutexInv (s : State) : Prop :=
  (s.supports_metal = true →
    s.nvidia_tesla = false ∧ s.nvidia_web = false ∧ s.amd_ts1 = false ∧
    s.amd_ts2 = false ∧ s.iron_gpu = false ∧ s.sandy_gpu = false) ∧
  (s.legacy_gcn = true → s.legacy_polaris = false ∧ s.legacy_vega = false)

theorem mutexInv_suppress (s : State) :
    MutexInv (gcnSuppress (metalSuppress s)) := by
  unfold MutexInv gcnSuppress metalSuppress
  split <;> split <;> simp_all

theorem mutexInv_rootKc (f : Facts) (e : Env) (s : State)
    (h : MutexInv s) : MutexInv (rootKcBlock f e s) := by
  unfold MutexInv rootKcBlock at *
  split <;> [simp_all; split <;> simp_all]

theorem mutexInv_net (f : Facts) (e : Env) (s : State)
    (h : MutexInv s) : MutexInv (checkNetworkingSupport f e s) := by
  unfold MutexInv checkNetworkingSupport at *
  split <;> [exact h; skip]
  split <;> [exact h; skip]
  split <;> [exact h; skip]
  split <;> [exact h; skip]
  split <;> [exact h; skip]
  split <;> [exact h; simp]

theorem mutexInv_verify (f : Facts) (e : Env) (s : State)
    (h : MutexInv s) : MutexInv ((verifyPatchAllowed f e s).1) := by
  unfold MutexInv verifyPatchAllowed at *
  dsimp only
  split <;> simp_all

/-- The detector establishes the mutual-exclusion invariant on every
input: the suppression passes run inside `detect_gpus` and no later
stage re-raises a suppressed flag. -/
theorem detect_mutexInv (f : Facts) (e : Env) :
    MutexInv ((detectPatchSet f e).1) := by
  unfold detectPatchSet
  dsimp only
  apply mutexInv_verify
  unfold detectGpus
  apply mutexInv_net
  apply mutexInv_rootKc
  apply mutexInv_suppress

/-! ### Gating helpers (claims C2, C6, C7, C9) -/

/-- The `can_apply` verdict as the negated disjunction of the blocking
conditions, phrased over the state `verify_patch_allowed` returns. -/
theorem verify_can_apply_eq (f : Facts) (e : Env) (s : State) :
    (verifyPatchAllowed f e s).2 =
      !((verifyPatchAllowed f e s).1.sip_enabled ||
        (verifyPatchAllowed f e s).1.sbm_enabled ||
        (verifyPatchAllowed f e s).1.fv_enabled ||
        (verifyPatchAllowed f e s).1.dosdude_patched ||
        (if (verifyPatchAllowed f e s).1.amfi_must_disable = true then
          (verifyPatchAllowed f e s).1.amfi_enabled else false) ||
        (if (verifyPatchAllowed f e s).1.nvidia_web = true then
          (verifyPatchAllowed f e s).1.missing_nv_web_nvram else false) ||
        (if (verifyPatchAllowed f e s).1.nvidia_web = true then
          (verifyPatchAllowed f e s).1.missing_nv_web_opengl else false) ||
        (if (verifyPatchAllowed f e s).1.nvidia_web = true then
          (verifyPatchAllowed f e s).1.missing_nv_compat else false) ||
        (if (verifyPatchAllowed f e s).1.nvidia_web = true then
          (verifyPatchAllowed f e s).1.missing_whatever_green else false) ||
        (if (verifyPatchAllowed f e s).1.requires_root_kc = true ∧
            (verifyPatchAllowed f e s).1.missing_kdk = true ∧
            f.detectedOS ≥ ventura then
          !(verifyPatchAllowed f e s).1.has_network else false)) :=
  rfl

/-- `verify_patch_allowed` only writes the validation fields: the
capability and requirement flags pass through unchanged. -/
theorem verify_preserves_flags (f : Facts) (e : Env) (s : State) :
    (verifyPatchAllowed f e s).1.requires_root_kc = s.requires_root_kc ∧
    (verifyPatchAllowed f e s).1.missing_kdk = s.missing_kdk ∧
    (verifyPatchAllowed f e s).1.has_network = s.has_network ∧
    (verifyPatchAllowed f e s).1.legacy_wifi = s.legacy_wifi ∧
    (verifyPatchAllowed f e s).1.nvidia_web = s.nvidia_web ∧
    (verifyPatchAllowed f e s).1.amfi_must_disable = s.amfi_must_disable := by
  unfold verifyPatchAllowed
  dsimp only
  split <;> simp

/-! ### Concrete sample inputs for witnesses and counterexamples -/

/-- A catalog entry supporting up to OS 22.1. -/
def sampleEntry : PatchEntry :=
  { minMajor := 0, minMinor := 0, maxMajor := 22, maxMinor := 1
    installX3000 := true }

/-- A constant catalog assigning `sampleEntry` to every name. -/
def sampleCat : String → PatchEntry := fun _ => sampleEntry

/-- A flag record with only the Broadwell iGPU patch active. -/
def broadwellHD : State := { initState with broadwell_gpu := true }

/-- Hardware facts with detected OS version (22, 10), whose printed
float value `22.10` collides with `22.1`. -/
def floatFacts : Facts :=
  { model := "MacBookPro11,1", detectedOS := 22, detectedOSMinor := 10
    buildIs21A5506j := false, forceNvWeb := false
    legacyAccelSupport := [17, 18, 19, 20, 21], gpus := []
    rosettaActive := false, cpuAVX2 := false, ambientLightSensor := false
    wifi := none, igpuPresent := false, dgpuClassCode := none
    hostIsHackintosh := false, usbControllers := []
    smbiosCpuGeneration := none, modelInLegacyBrightness := false
    modelInLegacyAudio := false, allowTs2Accel := false }

/-- A plain modern machine on Monterey: no legacy units at all. -/
def montereyFacts : Facts := { floatFacts with detectedOS := 21, detectedOSMinor := 0 }

/-- A Ventura machine with a legacy Broadcom wireless unit. -/
def venturaWifiFacts : Facts :=
  { floatFacts with
    detectedOSMinor := 0
    wifi := some { vendor := WifiVendor.broadcom
                   chipset := WifiChipset.airPortBrcm4331 } }

/-- A legacy GCN dGPU. -/
def gcnGpu : GPU :=
  { vendor := GPUVendor.amd, arch := GPUArch.amdGCN7000, classCode := 3
    disableMetal := false, forceCompatible := false }

/-- A legacy Vega dGPU. -/
def vegaGpu : GPU :=
  { vendor := GPUVendor.amd, arch := GPUArch.amdVega, classCode := 3
    disableMetal := false, forceCompatible := false }

/-- A Ventura machine carrying both a Vega and a GCN GPU. -/
def gcnVegaFacts : Facts :=
  { floatFacts with detectedOSMinor := 0, gpus := [vegaGpu, gcnGpu] }

/-- A fully permissive environment: network up, KDK installed, every
security policy relaxed, no prior patch record. -/
def permissiveEnv : Env :=
  { hasNetwork := true, kdkPresent := true, oclpPlistExists := false
    oclpPlistHasLegacyWireless := false, bootArgsWegNoEGpu := false
    bootArgsNvdaDrvVrl := false, nvdaDrvSet := false, bootArgsNgfxgl := false
    bootArgsNgfxcompat := false, appleAlcLoaded := false
    whateverGreenLoaded := false, sipStatus := fun _ => false
    secureBootEnabled := false, filevaultSkip := false
    fdesetupFileVaultOn := false, gen6KextPresent := false
    gen7KextPresent := false, amfiConfigPasses := fun _ => true }

/-- `permissiveEnv` with the network probe reporting no connection. -/
def noNetworkEnv : Env := { permissiveEnv with hasNetwork := false }

/-- SIP restrictive and FileVault on; everything else permissive. -/
def sipOnFvOnEnv : Env :=
  { permissiveEnv with sipStatus := fun _ => true
                       fdesetupFileVaultOn := true }

/-- Only FileVault on: `sipOnFvOnEnv` with just the SIP input flipped to
the permissive position. -/
def sipOffFvOnEnv : Env := { sipOnFvOnEnv with sipStatus := fun _ => false }

/-- No network, no KDK, and a durable `Legacy Wireless` record in the
on-disk patch manifest. -/
def recordEnv : Env :=
  { permissiveEnv with hasNetwork := false, kdkPresent := false
                       oclpPlistExists := true
                       oclpPlistHasLegacyWireless := true }

/-- No network, no KDK, and no on-disk record. -/
def noRecordEnv : Env :=
  { recordEnv with oclpPlistExists := false
                   oclpPlistHasLegacyWireless := false }

/-- A detector state mid-run: legacy wireless active, Root KC required,
KDK missing, no network (the fallback-demotion precondition). -/
def wifiKdkState : State :=
  { initState with legacy_wifi := true, requires_root_kc := true
                   missing_kdk := true }

/-- `wifiKdkState` with the Legacy GCN capability also active. -/
def wifiGcnState : State := { wifiKdkState with legacy_gcn := true }

/-- The (major, minor) pair comparison the specification prescribes for
version containment (`os <= max` lexicographically); written from the
spec's words for comparison against the source's float comparison. -/
def verLe (aMajor aMinor bMajor bMinor : Nat) : Bool :=
  aMajor < bMajor || (aMajor = bMajor && aMinor ≤ bMinor)

/-! ### Claim C1 -/

/-- Claim C1, counterexample: with detected OS version (22, 10) and a
catalog entry whose range tops out at (22, 1), `generate_patchset`
keeps the `Intel Broadwell` entry (the float values `22.10` and `22.1`
coincide), although the (major, minor) pair comparison prescribed by
the claim says the range does not contain the OS version. -/
theorem c1_counterexample :
    (keys (generatePatchset floatFacts broadwellHD sampleCat)).contains
      "Intel Broadwell" = true ∧
    verLe floatFacts.detectedOS floatFacts.detectedOSMinor
      sampleEntry.maxMajor sampleEntry.maxMinor = false := by
  decide

/-- Claim C1, amended: every entry remaining in the resolver's output
satisfies version containment with respect to the derived float value
`float(f"{major}.{minor}")` (the comparison the code actually performs),
not the (major, minor) pair; the two orders agree exactly when both
minor versions are below 10. -/
theorem c1_version_containment :
    (∀ (f : Facts) (hd : State) (cat : String → PatchEntry)
      (p : String × PatchEntry), p ∈ generatePatchset f hd cat →
      valLt (osVal f.detectedOS f.detectedOSMinor)
        (osVal p.2.minMajor p.2.minMinor) = false ∧
      valLt (osVal p.2.maxMajor p.2.maxMinor)
        (osVal f.detectedOS f.detectedOSMinor) = false) ∧
    (∀ a b c d : Nat, b < 10 → d < 10 →
      (valLt (osVal a b) (osVal c d) = true ↔ a < c ∨ (a = c ∧ b < d))) := by
  constructor
  · intro f hd cat p hp
    unfold generatePatchset at hp
    exact mem_gsFinalize_contained f _ p hp
  · exact valLt_pair_agreement

/-- Claim C1, witness: the containment part applied to the concrete
surviving `Intel Broadwell` entry, and the agreement part applied at
(22, 1) vs (22, 6). -/
theorem c1_witness :
    (valLt (osVal floatFacts.detectedOS floatFacts.detectedOSMinor)
      (osVal sampleEntry.minMajor sampleEntry.minMinor) = false ∧
     valLt (osVal sampleEntry.maxMajor sampleEntry.maxMinor)
      (osVal floatFacts.detectedOS floatFacts.detectedOSMinor) = false) ∧
    (valLt (osVal 22 1) (osVal 22 6) = true ↔ 22 < 22 ∨ (22 = 22 ∧ 1 < 6)) :=
  ⟨c1_version_containment.1 floatFacts broadwellHD sampleCat
    ("Intel Broadwell", sampleEntry) (by decide),
   c1_version_containment.2 22 1 22 6 (by decide) (by decide)⟩

/-! ### Claim C3 -/

/-- Claim C3, confirmed: in the detector's output no two flags of a
mutually exclusive group are simultaneously true — Metal support forces
all non-Metal rendering flags false, and Legacy GCN forces Legacy
Polaris and Legacy Vega false, for every input. -/
theorem c3_mutual_exclusion :
    ∀ (f : Facts) (e : Env),
    ((detectPatchSet f e).1.supports_metal = true →
      (detectPatchSet f e).1.nvidia_tesla = false ∧
      (detectPatchSet f e).1.nvidia_web = false ∧
      (detectPatchSet f e).1.amd_ts1 = false ∧
      (detectPatchSet f e).1.amd_ts2 = false ∧
      (detectPatchSet f e).1.iron_gpu = false ∧
      (detectPatchSet f e).1.sandy_gpu = false) ∧
    ((detectPatchSet f e).1.legacy_gcn = true →
      (detectPatchSet f e).1.legacy_polaris = false ∧
      (detectPatchSet f e).1.legacy_vega = false) :=
  fun f e => detect_mutexInv f e

/-- Claim C3, witness: a machine carrying both a Vega and a GCN GPU
comes out with Metal support and Legacy GCN set, and the theorem's two
implications discharge concretely. -/
theorem c3_witness :
    ((detectPatchSet gcnVegaFacts noNetworkEnv).1.nvidia_tesla = false ∧
     (detectPatchSet gcnVegaFacts noNetworkEnv).1.nvidia_web = false ∧
     (detectPatchSet gcnVegaFacts noNetworkEnv).1.amd_ts1 = false ∧
     (detectPatchSet gcnVegaFacts noNetworkEnv).1.amd_ts2 = false ∧
     (detectPatchSet gcnVegaFacts noNetworkEnv).1.iron_gpu = false ∧
     (detectPatchSet gcnVegaFacts noNetworkEnv).1.sandy_gpu = false) ∧
    ((detectPatchSet gcnVegaFacts noNetworkEnv).1.legacy_polaris = false ∧
     (detectPatchSet gcnVegaFacts noNetworkEnv).1.legacy_vega = false) :=
  ⟨(c3_mutual_exclusion gcnVegaFacts noNetworkEnv).1 (by decide),
   (c3_mutual_exclusion gcnVegaFacts noNetworkEnv).2 (by decide)⟩

/-! ### Claim C5 -/

/-- Claim C5, confirmed: the resolver's name sequence never repeats a
name (for any flag record and catalog), and re-inserting an existing
key leaves the key sequence unchanged — an entry implied by several
active flags therefore appears exactly once, at its first-occurrence
position. -/
theorem c5_dedup_first_occurrence :
    (∀ (f : Facts) (hd : State) (cat : String → PatchEntry),
      (keys (generatePatchset f hd cat)).Nodup) ∧
    (∀ (d : PatchDict) (k : String) (v : PatchEntry),
      k ∈ keys d → keys (dictUpdate d k v) = keys d) :=
  ⟨nodup_keys_generatePatchset,
   fun d k v h => by rw [keys_dictUpdate, if_pos h]⟩

/-- Claim C5, witness: no-duplicates at a concrete resolution, and a
concrete duplicate insertion keeping the original position. -/
theorem c5_witness :
    (keys (generatePatchset floatFacts broadwellHD sampleCat)).Nodup ∧
    keys (dictUpdate [("Monterey GVA", sampleEntry)] "Monterey GVA"
      sampleEntry) = keys [("Monterey GVA", sampleEntry)] :=
  ⟨c5_dedup_first_occurrence.1 floatFacts broadwellHD sampleCat,
   c5_dedup_first_occurrence.2 [("Monterey GVA", sampleEntry)]
     "Monterey GVA" sampleEntry (by decide)⟩

/-! ### Claim C10 -/

/-- Claim C10, confirmed: on detector-produced flag records the resolver
never emits `AMD Legacy Vega Extended` — it would need Legacy Vega and
Legacy GCN simultaneously true, which the suppression pass rules out. -/
theorem c10_no_vega_extended :
    ∀ (f : Facts) (e : Env) (cat : String → PatchEntry),
    (keys (generatePatchset f (detectPatchSet f e).1 cat)).contains
      "AMD Legacy Vega Extended" = false := by
  intro f e cat
  have hinv := detect_mutexInv f e
  have hgv : ¬((detectPatchSet f e).1.legacy_vega = true ∧
      (detectPatchSet f e).1.legacy_gcn = true) := by
    rintro ⟨hv, hg⟩
    have hveq := (hinv.2 hg).2
    exact absurd (hv.symm.trans hveq) (by decide)
  have hnm := vegaExt_not_mem_generatePatchset f _ cat hgv
  rw [Bool.eq_false_iff]
  intro hc
  exact hnm (List.elem_iff.mp hc)

/-! ### Claim C4 -/

/-- Claim C4, counterexample: detection is not a pure function of the
`HardwareFact` value alone — the same facts with the live network
probe flipped produce different capability records (the probe result is
stored in the returned flags), so external state does influence the
output. -/
theorem c4_counterexample :
    (detectPatchSet montereyFacts permissiveEnv).1.has_network = true ∧
    (detectPatchSet montereyFacts noNetworkEnv).1.has_network = false ∧
    decide ((detectPatchSet montereyFacts permissiveEnv).1 =
      (detectPatchSet montereyFacts noNetworkEnv).1) = false := by
  decide

/-- Claim C4, amended: detection is a deterministic function of the
hardware facts together with an explicit snapshot of the external state
(network probe, KDK presence, on-disk record, NVRAM, loaded kexts,
security-policy states): two calls agree whenever both inputs agree. -/
theorem c4_deterministic :
    ∀ (f1 f2 : Facts) (e1 e2 : Env), f1 = f2 → e1 = e2 →
    detectPatchSet f1 e1 = detectPatchSet f2 e2 := by
  intro f1 f2 e1 e2 hf he
  rw [hf, he]

/-- Claim C4, witness: determinism applied at a concrete input pair. -/
theorem c4_witness :
    detectPatchSet montereyFacts permissiveEnv =
      detectPatchSet montereyFacts permissiveEnv :=
  c4_deterministic montereyFacts montereyFacts permissiveEnv permissiveEnv
    rfl rfl

/-! ### Claim C6 -/

/-- Claim C6, counterexample: with SIP restrictive and FileVault on,
`can_apply` and `can_revert` are both false; flipping only the SIP
input to permissive makes `can_revert` true but leaves `can_apply`
false (FileVault still blocks), refuting "flips both to true
independent of the rest of the checklist". -/
theorem c6_counterexample :
    (verifyPatchAllowed montereyFacts sipOnFvOnEnv initState).2 = false ∧
    verifyUnpatchAllowed
      (verifyPatchAllowed montereyFacts sipOnFvOnEnv initState).1 = false ∧
    (verifyPatchAllowed montereyFacts sipOffFvOnEnv initState).2 = false ∧
    verifyUnpatchAllowed
      (verifyPatchAllowed montereyFacts sipOffFvOnEnv initState).1 = true := by
  decide

/-- Claim C6, amended: with SIP restrictive, `can_apply = false` and
`can_revert = false` independent of the rest of the checklist; flipping
SIP to permissive always flips `can_revert` to true, and flips
`can_apply` to true only provided every other checklist condition is
also in its permissive position. -/
theorem c6_gating :
    ∀ (f : Facts) (e : Env) (s : State),
    ((verifyPatchAllowed f e s).1.sip_enabled = true →
      (verifyPatchAllowed f e s).2 = false ∧
      verifyUnpatchAllowed (verifyPatchAllowed f e s).1 = false) ∧
    ((verifyPatchAllowed f e s).1.sip_enabled = false →
      verifyUnpatchAllowed (verifyPatchAllowed f e s).1 = true) ∧
    ((verifyPatchAllowed f e s).1.sip_enabled = false →
      (verifyPatchAllowed f e s).1.sbm_enabled = false →
      (verifyPatchAllowed f e s).1.fv_enabled = false →
      (verifyPatchAllowed f e s).1.dosdude_patched = false →
      ((verifyPatchAllowed f e s).1.amfi_must_disable = true →
        (verifyPatchAllowed f e s).1.amfi_enabled = false) →
      ((verifyPatchAllowed f e s).1.nvidia_web = true →
        (verifyPatchAllowed f e s).1.missing_nv_web_nvram = false ∧
        (verifyPatchAllowed f e s).1.missing_nv_web_opengl = false ∧
        (verifyPatchAllowed f e s).1.missing_nv_compat = false ∧
        (verifyPatchAllowed f e s).1.missing_whatever_green = false) →
      ((verifyPatchAllowed f e s).1.requires_root_kc = true →
        (verifyPatchAllowed f e s).1.missing_kdk = true →
        ventura ≤ f.detectedOS →
        (verifyPatchAllowed f e s).1.has_network = true) →
      (verifyPatchAllowed f e s).2 = true) := by
  intro f e s
  have hca := verify_can_apply_eq f e s
  refine ⟨?_, ?_, ?_⟩
  · intro h
    constructor
    · rw [hca, h]
      simp
    · unfold verifyUnpatchAllowed
      rw [h]
      rfl
  · intro h
    unfold verifyUnpatchAllowed
    rw [h]
    rfl
  · intro h1 h2 h3 h4 h5 h6 h7
    rw [hca, h1, h2, h3, h4]
    cases hmd : (verifyPatchAllowed f e s).1.amfi_must_disable with
    | true =>
        have ha := h5 hmd
        cases hnw : (verifyPatchAllowed f e s).1.nvidia_web with
        | true =>
            obtain ⟨w1, w2, w3, w4⟩ := h6 hnw
            by_cases hk : (verifyPatchAllowed f e s).1.requires_root_kc = true ∧
                (verifyPatchAllowed f e s).1.missing_kdk = true ∧
                ventura ≤ f.detectedOS
            · have hnet := h7 hk.1 hk.2.1 hk.2.2
              simp [ha, w1, w2, w3, w4, hk, hnet]
            · simp [ha, w1, w2, w3, w4, hk]
        | false =>
            by_cases hk : (verifyPatchAllowed f e s).1.requires_root_kc = true ∧
                (verifyPatchAllowed f e s).1.missing_kdk = true ∧
                ventura ≤ f.detectedOS
            · have hnet := h7 hk.1 hk.2.1 hk.2.2
              simp [ha, hk, hnet]
            · simp [ha, hk]
    | false =>
        cases hnw : (verifyPatchAllowed f e s).1.nvidia_web with
        | true =>
            obtain ⟨w1, w2, w3, w4⟩ := h6 hnw
            by_cases hk : (verifyPatchAllowed f e s).1.requires_root_kc = true ∧
                (verifyPatchAllowed f e s).1.missing_kdk = true ∧
                ventura ≤ f.detectedOS
            · have hnet := h7 hk.1 hk.2.1 hk.2.2
              simp [w1, w2, w3, w4, hk, hnet]
            · simp [w1, w2, w3, w4, hk]
        | false =>
            by_cases hk : (verifyPatchAllowed f e s).1.requires_root_kc = true ∧
                (verifyPatchAllowed f e s).1.missing_kdk = true ∧
                ventura ≤ f.detectedOS
            · have hnet := h7 hk.1 hk.2.1 hk.2.2
              simp [hk, hnet]
            · simp [hk]

/-- Claim C6, witness: the restrictive case at a concrete input, and
both permissive conclusions at a concrete fully-permissive input. -/
theorem c6_witness :
    ((verifyPatchAllowed montereyFacts sipOnFvOnEnv initState).2 = false ∧
     verifyUnpatchAllowed
       (verifyPatchAllowed montereyFacts sipOnFvOnEnv initState).1 = false) ∧
    verifyUnpatchAllowed
      (verifyPatchAllowed montereyFacts permissiveEnv initState).1 = true ∧
    (verifyPatchAllowed montereyFacts permissiveEnv initState).2 = true :=
  ⟨(c6_gating montereyFacts sipOnFvOnEnv initState).1 (by decide),
   (c6_gating montereyFacts permissiveEnv initState).2.1 (by decide),
   (c6_gating montereyFacts permissiveEnv initState).2.2 (by decide)
     (by decide) (by decide) (by decide) (by decide) (by decide) (by decide)⟩

/-! ### Claim C7 -/

/-- Claim C7, confirmed: `can_revert` is true iff the SIP state recorded
by the checklist is permissive, and it depends on nothing but that one
field of the state. -/
theorem c7_revert_gating :
    ∀ s : State,
    (verifyUnpatchAllowed s = true ↔ s.sip_enabled = false) ∧
    (∀ s2 : State, s2.sip_enabled = s.sip_enabled →
      verifyUnpatchAllowed s2 = verifyUnpatchAllowed s) := by
  intro s
  constructor
  · unfold verifyUnpatchAllowed
    cases hb : s.sip_enabled <;> simp [hb]
  · intro s2 h
    unfold verifyUnpatchAllowed
    rw [h]

/-- Claim C7, witness: the equivalence and the frame property applied at
concrete states differing in every field but SIP. -/
theorem c7_witness :
    verifyUnpatchAllowed initState = true ∧
    verifyUnpatchAllowed wifiGcnState = verifyUnpatchAllowed initState :=
  ⟨(c7_revert_gating initState).1.mpr (by decide),
   (c7_revert_gating initState).2 wifiGcnState (by decide)⟩

/-! ### Claim C9 -/

/-- Claim C9, confirmed: whenever a run reports patching possible it
also reports unpatching possible — `can_apply = true` forces the SIP
check to have passed, and `can_revert` is exactly its negation. -/
theorem c9_apply_implies_revert :
    ∀ (f : Facts) (e : Env),
    (detectPatchSet f e).2.1 = true → (detectPatchSet f e).2.2 = true := by
  intro f e h
  unfold detectPatchSet at h ⊢
  dsimp only at h ⊢
  rw [verify_can_apply_eq] at h
  simp only [Bool.not_eq_true', Bool.or_eq_false_iff] at h
  unfold verifyUnpatchAllowed
  rw [h.1.1.1.1.1.1.1.1.1]
  rfl

/-- Claim C9, witness: a clean modern machine with everything permissive
has `can_apply = true`, and the theorem yields `can_revert = true`. -/
theorem c9_witness :
    (detectPatchSet montereyFacts permissiveEnv).2.2 = true :=
  c9_apply_implies_revert montereyFacts permissiveEnv (by decide)

/-! ### Claim C2 -/

/-- Claim C2, counterexample: with the fallback preconditions met and a
durable `Legacy Wireless` record present, the code does NOT demote —
`requires_root_kc` stays true — while the claim says the record's
presence is what enables the demotion; conversely with no record the
code does demote, while the claim says the requirement should stay
true. The polarity is inverted. -/
theorem c2_counterexample :
    (checkNetworkingSupport venturaWifiFacts recordEnv
      wifiKdkState).requires_root_kc = true ∧
    (checkNetworkingSupport venturaWifiFacts noRecordEnv
      wifiKdkState).requires_root_kc = false := by
  decide

/-- Claim C2, amended (polarity swapped to match the code): at the
Ventura threshold with the legacy-wireless capability active, the
auxiliary collection required, the KDK missing and no network, if the
durable record EXISTS the demotion does not occur — the requirement
stays true and the "network required" blocking condition makes
`can_apply` false; if NO record exists, the requirement is demoted to
false and the narrow wireless capability remains applied. -/
theorem c2_fallback_demotion :
    ∀ (f : Facts) (e : Env) (s : State),
    f.detectedOS = ventura → s.legacy_wifi = true →
    s.requires_root_kc = true → s.missing_kdk = true →
    s.has_network = false →
    ((e.oclpPlistExists = true ∧ e.oclpPlistHasLegacyWireless = true →
      (checkNetworkingSupport f e s).requires_root_kc = true ∧
      (verifyPatchAllowed f e (checkNetworkingSupport f e s)).2 = false) ∧
     (¬(e.oclpPlistExists = true ∧ e.oclpPlistHasLegacyWireless = true) →
      (checkNetworkingSupport f e s).requires_root_kc = false ∧
      (checkNetworkingSupport f e s).legacy_wifi = true)) := by
  intro f e s hos hw hrk hmk hn
  constructor
  · intro hrec
    have hskip : checkNetworkingSupport f e s = s := by
      unfold checkNetworkingSupport
      rw [if_neg (by rw [hos]; exact Nat.lt_irrefl _)]
      rw [if_neg (by simp [hw])]
      rw [if_neg (by simp [hrk])]
      rw [if_neg (by simp [hmk])]
      rw [if_neg (by simp [hn])]
      rw [if_pos hrec]
    rw [hskip]
    refine ⟨hrk, ?_⟩
    rw [verify_can_apply_eq]
    obtain ⟨hp1, hp2, hp3, _, _, _⟩ := verify_preserves_flags f e s
    simp [hp1, hp2, hp3, hrk, hmk, hn, hos]
  · intro hrec
    have hdem : (checkNetworkingSupport f e s).requires_root_kc = false ∧
        (checkNetworkingSupport f e s).legacy_wifi = s.legacy_wifi := by
      unfold checkNetworkingSupport
      rw [if_neg (by rw [hos]; exact Nat.lt_irrefl _)]
      rw [if_neg (by simp [hw])]
      rw [if_neg (by simp [hrk])]
      rw [if_neg (by simp [hmk])]
      rw [if_neg (by simp [hn])]
      rw [if_neg hrec]
      exact ⟨rfl, rfl⟩
    exact ⟨hdem.1, hdem.2.trans hw⟩

/-- Claim C2, witness: both branches exercised at the concrete Ventura
wireless configuration, with and without the on-disk record. -/
theorem c2_witness :
    ((checkNetworkingSupport venturaWifiFacts recordEnv
        wifiKdkState).requires_root_kc = true ∧
      (verifyPatchAllowed venturaWifiFacts recordEnv
        (checkNetworkingSupport venturaWifiFacts recordEnv
          wifiKdkState)).2 = false) ∧
    ((checkNetworkingSupport venturaWifiFacts noRecordEnv
        wifiKdkState).requires_root_kc = false ∧
      (checkNetworkingSupport venturaWifiFacts noRecordEnv
        wifiKdkState).legacy_wifi = true) :=
  ⟨(c2_fallback_demotion venturaWifiFacts recordEnv wifiKdkState
      (by decide) (by decide) (by decide) (by decide) (by decide)).1
      (by decide),
   (c2_fallback_demotion venturaWifiFacts noRecordEnv wifiKdkState
      (by decide) (by decide) (by decide) (by decide) (by decide)).2
      (by decide)⟩

/-! ### Claim C8 -/

/-- Claim C8, counterexample: the demotion pass runs even when another
capability (Legacy GCN) also requires the auxiliary collection, and it
clears that legacy-graphics flag rather than leaving it unchanged. -/
theorem c8_counterexample :
    wifiGcnState.legacy_gcn = true ∧
    (checkNetworkingSupport venturaWifiFacts noRecordEnv
      wifiGcnState).legacy_gcn = false ∧
    (checkNetworkingSupport venturaWifiFacts noRecordEnv
      wifiGcnState).requires_root_kc = false := by
  decide

/-- Claim C8, amended: the demotion runs whenever the OS is at least
Ventura, the wireless capability is active, the auxiliary collection is
required, the KDK is missing, no network is available and no durable
record exists — regardless of which other capabilities require the
collection — and it sets exactly `requires_root_kc`, `missing_kdk` and
all KDK-dependent patch flags (the GPU-family flags, brightness, audio,
GMUX, keyboard backlight) to false, leaving every other field,
including `legacy_wifi` itself, unchanged; when any precondition fails
or the record exists, the state is returned entirely unchanged. -/
theorem c8_demotion_frame :
    ∀ (f : Facts) (e : Env) (s : State),
    (ventura ≤ f.detectedOS → s.legacy_wifi = true →
     s.requires_root_kc = true → s.missing_kdk = true →
     s.has_network = false →
     ¬(e.oclpPlistExists = true ∧ e.oclpPlistHasLegacyWireless = true) →
     checkNetworkingSupport f e s =
       { s with missing_kdk := false, requires_root_kc := false,
                nvidia_tesla := false, nvidia_web := false,
                amd_ts1 := false, amd_ts2 := false, iron_gpu := false,
                sandy_gpu := false, legacy_gcn := false,
                legacy_polaris := false, legacy_vega := false,
                brightness_legacy := false, legacy_audio := false,
                legacy_gmux := false,
                legacy_keyboard_backlight := false }) ∧
    (f.detectedOS < ventura ∨ s.legacy_wifi = false ∨
     s.requires_root_kc = false ∨ s.missing_kdk = false ∨
     s.has_network = true ∨
     (e.oclpPlistExists = true ∧ e.oclpPlistHasLegacyWireless = true) →
     checkNetworkingSupport f e s = s) := by
  intro f e s
  constructor
  · intro hos hw hrk hmk hn hrec
    unfold checkNetworkingSupport
    rw [if_neg (Nat.not_lt.mpr hos)]
    rw [if_neg (by simp [hw])]
    rw [if_neg (by simp [hrk])]
    rw [if_neg (by simp [hmk])]
    rw [if_neg (by simp [hn])]
    rw [if_neg hrec]
  · intro h
    unfold checkNetworkingSupport
    rcases h with h | h | h | h | h | h
    · rw [if_pos h]
    · split
      · rfl
      · rfl
    · split
      · rfl
      · split
        · rfl
        · rfl
    · split
      · rfl
      · split
        · rfl
        · split
          · rfl
          · rfl
    · split
      · rfl
      · split
        · rfl
        · split
          · rfl
          · split
            · rfl
            · rfl
    · split
      · rfl
      · split
        · rfl
        · split
          · rfl
          · split
            · rfl
            · split
              · rfl
              · rfl

/-- Claim C8, witness: the exact demoted state at the concrete Ventura
wireless-plus-GCN configuration, and the unchanged state once the
record exists. -/
theorem c8_witness :
    checkNetworkingSupport venturaWifiFacts noRecordEnv wifiGcnState =
      { wifiGcnState with
          missing_kdk := false, requires_root_kc := false,
          nvidia_tesla := false, nvidia_web := false, amd_ts1 := false,
          amd_ts2 := false, iron_gpu := false, sandy_gpu := false,
          legacy_gcn := false, legacy_polaris := false, legacy_vega := false,
          brightness_legacy := false, legacy_audio := false,
          legacy_gmux := false, legacy_keyboard_backlight := false } ∧
    checkNetworkingSupport venturaWifiFacts recordEnv wifiGcnState =
      wifiGcnState :=
  ⟨(c8_demotion_frame venturaWifiFacts noRecordEnv wifiGcnState).1
      (by decide) (by decide) (by decide) (by decide) (by decide) (by decide),
   (c8_demotion_frame venturaWifiFacts recordEnv wifiGcnState).2
      (by decide)⟩

end OCLP
